import Mathlib

/-!
Shallow embedding of the PyAbsorp acoustic-absorption library and proofs
about it. Python floats are modelled as real numbers, numpy complex values
as elements of the complex field, and the elementwise numpy operations are
embedded at a single frequency (every claim is elementwise). Fractional
powers on complex values (numpy z ** 0.5) are the principal-branch complex
power, and z ** -1 is the reciprocal. A Python function that can fall off
the end without returning (or that raises) is embedded with an Option
result, where none stands for the no-value outcome.
-/

namespace PyAbsorp

noncomputable section

/-- Embeds line 32 of pyabsorp/absorption.py: the surface impedance
zs = -1j * (zc / np.tan(kc * d)). -/
def zs (zc kc : ℂ) (d : ℝ) : ℂ :=
  -Complex.I * (zc / Complex.tan (kc * (d : ℂ)))

/-- Embeds absorption_coefficient of pyabsorp/absorption.py: the
reflection coefficient vp = (zs - z_air) / (zs + z_air) and the returned
value 1 - np.abs(vp) ** 2. -/
def absorption_coefficient (zc kc : ℂ) (d z_air : ℝ) : ℝ :=
  1 - Complex.abs ((zs zc kc d - (z_air : ℂ)) / (zs zc kc d + (z_air : ℂ))) ^ 2

/-- Embeds rayleigh_absorption of pyabsorp/models/rayleigh.py, which
repeats the same three lines as absorption_coefficient. -/
def rayleigh_absorption (zc kc : ℂ) (d c_imp_air : ℝ) : ℝ :=
  let zs' : ℂ := -Complex.I * (zc / Complex.tan (kc * (d : ℂ)))
  let reflex : ℂ := (zs' - (c_imp_air : ℂ)) / (zs' + (c_imp_air : ℂ))
  1 - Complex.abs reflex ^ 2

/-- Embeds biot_allard_absorption of pyabsorp/models/biot_allard.py:
identical to absorption_coefficient except that zc is first divided by
the porosity. -/
def biot_allard_absorption (zc kc : ℂ) (d c_imp_air poros : ℝ) : ℝ :=
  let zs' : ℂ := -Complex.I * ((zc / (poros : ℂ)) / Complex.tan (kc * (d : ℂ)))
  let reflex : ℂ := (zs' - (c_imp_air : ℂ)) / (zs' + (c_imp_air : ℂ))
  1 - Complex.abs reflex ^ 2

/-- Helper: the complex tangent of pi/4 (coerced from the reals) is 1. -/
theorem complex_tan_pi_div_four : Complex.tan ((Real.pi / 4 : ℝ) : ℂ) = 1 := by
  rw [← Complex.ofReal_tan, Real.tan_pi_div_four, Complex.ofReal_one]

/-- C1: whenever tan(kc*d) is nonzero and zs differs from -z_air,
absorption_coefficient returns 1 - |(zs - z_air)/(zs + z_air)|^2 with
zs = -i*zc/tan(kc*d). -/
theorem absorption_coefficient_closed_form (zc kc : ℂ) (d z_air : ℝ)
    (h1 : Complex.tan (kc * (d : ℂ)) ≠ 0)
    (h2 : zs zc kc d ≠ -(z_air : ℂ)) :
    absorption_coefficient zc kc d z_air =
      1 - Complex.abs
        ((-Complex.I * (zc / Complex.tan (kc * (d : ℂ))) - (z_air : ℂ)) /
         (-Complex.I * (zc / Complex.tan (kc * (d : ℂ))) + (z_air : ℂ))) ^ 2 := rfl

/-- Witness for C1 at zc = 1, kc = pi/4, d = 1, z_air = 1, where
tan(kc*d) = 1 and zs = -i. -/
theorem absorption_coefficient_closed_form_witness :
    Complex.tan (((Real.pi / 4 : ℝ) : ℂ) * ((1 : ℝ) : ℂ)) ≠ 0 ∧
    zs 1 ((Real.pi / 4 : ℝ) : ℂ) 1 ≠ -((1 : ℝ) : ℂ) ∧
    absorption_coefficient 1 ((Real.pi / 4 : ℝ) : ℂ) 1 1 =
      1 - Complex.abs
        ((-Complex.I * (1 / Complex.tan (((Real.pi / 4 : ℝ) : ℂ) * ((1 : ℝ) : ℂ))) - ((1 : ℝ) : ℂ)) /
         (-Complex.I * (1 / Complex.tan (((Real.pi / 4 : ℝ) : ℂ) * ((1 : ℝ) : ℂ))) + ((1 : ℝ) : ℂ))) ^ 2 := by
  have htan : Complex.tan (((Real.pi / 4 : ℝ) : ℂ) * ((1 : ℝ) : ℂ)) = 1 := by
    rw [Complex.ofReal_one, mul_one, complex_tan_pi_div_four]
  have h1 : Complex.tan (((Real.pi / 4 : ℝ) : ℂ) * ((1 : ℝ) : ℂ)) ≠ 0 := by
    rw [htan]; exact one_ne_zero
  have h2 : zs 1 ((Real.pi / 4 : ℝ) : ℂ) 1 ≠ -((1 : ℝ) : ℂ) := by
    rw [zs, htan]
    simp [Complex.ext_iff]
  exact ⟨h1, h2, absorption_coefficient_closed_form 1 _ 1 1 h1 h2⟩

/-- C5 counterexample: with all-real inputs the premise zs = z_air of the
claim forces zc = 0 and z_air = 0 (zs is purely imaginary otherwise); at
zc = 0, kc = pi/4, d = 1, z_air = 0 the premise holds and the returned
absorption is not 0 as the claim asserts (the embedding yields 1; IEEE
arithmetic yields NaN from the 0/0 reflection quotient; neither is 0). -/
theorem absorption_matched_real_counterexample :
    zs 0 ((Real.pi / 4 : ℝ) : ℂ) 1 = ((0 : ℝ) : ℂ) ∧
    absorption_coefficient 0 ((Real.pi / 4 : ℝ) : ℂ) 1 0 ≠ 0 := by
  constructor
  · simp [zs]
  · simp [absorption_coefficient, zs]

/-- C5 amended: the result of absorption_coefficient is real-valued (by
construction it is 1 minus a squared modulus), and whenever the surface
impedance zs equals the (nonzero) air impedance the reflection
coefficient vanishes and the absorption equals exactly 1. -/
theorem absorption_matched_impedance_eq_one (zc kc : ℂ) (d z_air : ℝ)
    (hmatch : zs zc kc d = (z_air : ℂ)) (hz : (z_air : ℂ) ≠ 0) :
    absorption_coefficient zc kc d z_air = 1 := by
  rw [absorption_coefficient, hmatch]
  simp

/-- Witness for C5 amended at zc = i, kc = pi/4, d = 1, z_air = 1, where
zs = -i * (i / 1) = 1. -/
theorem absorption_matched_impedance_eq_one_witness :
    zs Complex.I ((Real.pi / 4 : ℝ) : ℂ) 1 = ((1 : ℝ) : ℂ) ∧
    ((1 : ℝ) : ℂ) ≠ 0 ∧
    absorption_coefficient Complex.I ((Real.pi / 4 : ℝ) : ℂ) 1 1 = 1 := by
  have hmatch : zs Complex.I ((Real.pi / 4 : ℝ) : ℂ) 1 = ((1 : ℝ) : ℂ) := by
    rw [zs, Complex.ofReal_one, mul_one, complex_tan_pi_div_four]
    simp [Complex.ext_iff]
  have hz : ((1 : ℝ) : ℂ) ≠ 0 := by norm_num
  exact ⟨hmatch, hz, absorption_matched_impedance_eq_one _ _ 1 1 hmatch hz⟩

/-- C9: rayleigh_absorption coincides with absorption_coefficient on all
inputs, and biot_allard_absorption with nonzero porosity coincides with
absorption_coefficient applied to zc divided by the porosity: the three
absorption functions are one transform up to the porosity division. -/
theorem absorption_functions_agree :
    (∀ (zc kc : ℂ) (d c_imp_air : ℝ),
      rayleigh_absorption zc kc d c_imp_air = absorption_coefficient zc kc d c_imp_air) ∧
    (∀ (zc kc : ℂ) (d c_imp_air poros : ℝ), poros ≠ 0 →
      biot_allard_absorption zc kc d c_imp_air poros =
        absorption_coefficient (zc / (poros : ℂ)) kc d c_imp_air) := by
  exact ⟨fun zc kc d c => rfl, fun zc kc d c poros hp => rfl⟩

/-- Witness for C9 at concrete inputs with porosity 1/2. -/
theorem absorption_functions_agree_witness :
    ((1 : ℝ) / 2 : ℝ) ≠ 0 ∧
    biot_allard_absorption 1 1 1 1 ((1 : ℝ) / 2) =
      absorption_coefficient (1 / (((1 : ℝ) / 2 : ℝ) : ℂ)) 1 1 1 := by
  have hp : ((1 : ℝ) / 2 : ℝ) ≠ 0 := by norm_num
  exact ⟨hp, absorption_functions_agree.2 1 1 1 1 ((1 : ℝ) / 2) hp⟩

/-- C10: wherever it is defined (nonzero tangent, zs distinct from
-z_air) the returned absorption is a real number at most 1, being 1 minus
a squared modulus; and no lower bound holds: at zc = i, kc = pi/4, d = 1,
z_air = -2 the returned value is negative. -/
theorem absorption_coefficient_le_one :
    (∀ (zc kc : ℂ) (d z_air : ℝ), Complex.tan (kc * (d : ℂ)) ≠ 0 →
      zs zc kc d ≠ -(z_air : ℂ) → absorption_coefficient zc kc d z_air ≤ 1) ∧
    absorption_coefficient Complex.I ((Real.pi / 4 : ℝ) : ℂ) 1 (-2) < 0 := by
  constructor
  · intro zc kc d z_air _ _
    exact sub_le_self 1 (by positivity)
  · have hzs : zs Complex.I ((Real.pi / 4 : ℝ) : ℂ) 1 = 1 := by
      rw [zs, Complex.ofReal_one, mul_one, complex_tan_pi_div_four]
      simp [Complex.ext_iff]
    rw [absorption_coefficient, hzs]
    have hv : ((1 : ℂ) - ((-2 : ℝ) : ℂ)) / ((1 : ℂ) + ((-2 : ℝ) : ℂ)) = -3 := by
      push_cast
      norm_num
    rw [hv]
    rw [Complex.sq_abs]
    simp [Complex.normSq_apply]
    norm_num

/-- Embeds the private helper of pyabsorp/models/delany_bazley.py for the
default variant (Python name with two leading underscores): R, X, alpha
and beta from the ratio 1e3 * freq / flow_resis, with
zc = sound_spd * air_dens * (R + 1j * X) and
kc = (2 * pi * freq / sound_spd) * (alpha + 1j * beta). -/
def dbDefault (flow_resis air_dens sound_spd freq : ℝ) : ℂ × ℂ :=
  let R : ℝ := 1 + 9.08 * (1e3 * freq / flow_resis) ^ (-0.75 : ℝ)
  let X : ℝ := -11.9 * (1e3 * freq / flow_resis) ^ (-0.73 : ℝ)
  let zc : ℂ := ((sound_spd * air_dens : ℝ) : ℂ) * ((R : ℂ) + Complex.I * (X : ℂ))
  let alpha : ℝ := 1 + 10.8 * (1e3 * freq / flow_resis) ^ (-0.7 : ℝ)
  let beta : ℝ := -10.3 * (1e3 * freq / flow_resis) ^ (-0.59 : ℝ)
  let kc : ℂ := ((2 * Real.pi * freq / sound_spd : ℝ) : ℂ) * ((alpha : ℂ) + Complex.I * (beta : ℂ))
  (zc, kc)

/-- Embeds the private miki helper of pyabsorp/models/delany_bazley.py. -/
def dbMiki (flow_resis air_dens sound_spd freq : ℝ) : ℂ × ℂ :=
  let R : ℝ := 1 + 5.50 * (1e3 * freq / flow_resis) ^ (-0.632 : ℝ)
  let X : ℝ := -8.43 * (1e3 * freq / flow_resis) ^ (-0.632 : ℝ)
  let zc : ℂ := ((sound_spd * air_dens : ℝ) : ℂ) * ((R : ℂ) + Complex.I * (X : ℂ))
  let alpha : ℝ := 1 + 7.81 * (1e3 * freq / flow_resis) ^ (-0.618 : ℝ)
  let beta : ℝ := -11.41 * (1e3 * freq / flow_resis) ^ (-0.618 : ℝ)
  let kc : ℂ := ((2 * Real.pi * freq / sound_spd : ℝ) : ℂ) * ((alpha : ℂ) + Complex.I * (beta : ℂ))
  (zc, kc)

/-- Embeds the private allard-champoux helper of
pyabsorp/models/delany_bazley.py, whose ratio is
air_dens * freq / flow_resis. -/
def dbAllardChampoux (flow_resis air_dens sound_spd freq : ℝ) : ℂ × ℂ :=
  let R : ℝ := 1 + 0.0571 * (air_dens * freq / flow_resis) ^ (-0.754 : ℝ)
  let X : ℝ := -0.0870 * (air_dens * freq / flow_resis) ^ (-0.732 : ℝ)
  let zc : ℂ := ((sound_spd * air_dens : ℝ) : ℂ) * ((R : ℂ) + Complex.I * (X : ℂ))
  let alpha : ℝ := 1 + 0.0978 * (air_dens * freq / flow_resis) ^ (-0.7 : ℝ)
  let beta : ℝ := -0.1890 * (air_dens * freq / flow_resis) ^ (-0.595 : ℝ)
  let kc : ℂ := ((2 * Real.pi * freq / sound_spd : ℝ) : ℂ) * ((alpha : ℂ) + Complex.I * (beta : ℂ))
  (zc, kc)

/-- Embeds delany_bazley of pyabsorp/models/delany_bazley.py: string
dispatch over the three variants; the final else raises ValueError,
embedded as none. -/
def delany_bazley (flow_resis air_dens sound_spd freq : ℝ) (var : String) : Option (ℂ × ℂ) :=
  if var = "allard-champoux" then some (dbAllardChampoux flow_resis air_dens sound_spd freq)
  else if var = "default" then some (dbDefault flow_resis air_dens sound_spd freq)
  else if var = "miki" then some (dbMiki flow_resis air_dens sound_spd freq)
  else none

/-- C6 counterexample: at the reference point f = 1000, flow_resis = 1000,
air_dens = 1.2, sound_spd = 343 the ratio 1e3 * f / flow_resis is 1000,
not 1, so the real part of zc from the default variant is
343 * 1.2 * (1 + 9.08 * 1000 ^ (-0.75)), strictly below the claimed
343 * 1.2 * 10.08. -/
theorem delany_default_reference_counterexample :
    (dbDefault 1000 1.2 343 1000).1.re ≠ 343 * 1.2 * 10.08 := by
  have hlt : (1e3 * 1000 / 1000 : ℝ) ^ (-0.75 : ℝ) < 1 := by
    have h1 : (1 : ℝ) < 1e3 * 1000 / 1000 := by norm_num
    exact Real.rpow_lt_one_of_one_lt_of_neg h1 (by norm_num)
  have hre : (dbDefault 1000 1.2 343 1000).1.re =
      343 * 1.2 * (1 + 9.08 * (1e3 * 1000 / 1000 : ℝ) ^ (-0.75 : ℝ)) := by
    simp [dbDefault, Complex.add_re, Complex.mul_re, Complex.I_re, Complex.I_im,
      Complex.ofReal_re, Complex.ofReal_im]
  rw [hre]
  intro hcontra
  nlinarith

/-- C6 amended: the code computes R = 1 + 9.08 * (1e3 * f / flow_resis) ^
(-0.75); R equals 10.08 exactly where the ratio 1e3 * f / flow_resis
equals 1 (for instance f = 1 Hz with flow_resis = 1000, rather than the
reference point f = 1000 with flow_resis = 1000, where the ratio is 1000
and R is strictly smaller). -/
theorem delany_default_unit_ratio (flow_resis air_dens sound_spd freq : ℝ)
    (hratio : 1e3 * freq / flow_resis = 1) :
    (dbDefault flow_resis air_dens sound_spd freq).1.re =
      sound_spd * air_dens * 10.08 := by
  have hre : (dbDefault flow_resis air_dens sound_spd freq).1.re =
      sound_spd * air_dens * (1 + 9.08 * (1e3 * freq / flow_resis : ℝ) ^ (-0.75 : ℝ)) := by
    simp [dbDefault, Complex.add_re, Complex.mul_re, Complex.I_re, Complex.I_im,
      Complex.ofReal_re, Complex.ofReal_im]
  rw [hre, hratio, Real.one_rpow]
  norm_num

/-- Witness for C6 amended at f = 1, flow_resis = 1000. -/
theorem delany_default_unit_ratio_witness :
    (1e3 * 1 / 1000 : ℝ) = 1 ∧
    (dbDefault 1000 1.2 343 1).1.re = 343 * 1.2 * 10.08 := by
  have hratio : (1e3 * 1 / 1000 : ℝ) = 1 := by norm_num
  exact ⟨hratio, delany_default_unit_ratio 1000 1.2 343 1 hratio⟩

/-- C8: for positive inputs, each of the three variants returns the pair
given by its published coefficient set (default and miki over the ratio
1e3 * f / flow_resis, allard-champoux over air_dens * f / flow_resis),
with zc = sound_spd * air_dens * (R + i X) and
kc = (2 pi f / sound_spd) * (alpha + i beta); any other variant string
yields no value (a raised ValueError). -/
theorem delany_bazley_spec (flow_resis air_dens sound_spd freq : ℝ)
    (hf : 0 < freq) (hs : 0 < flow_resis) (hd : 0 < air_dens) (hc : 0 < sound_spd) :
    delany_bazley flow_resis air_dens sound_spd freq "default" =
      some (((sound_spd * air_dens : ℝ) : ℂ) *
              (((1 + 9.08 * (1e3 * freq / flow_resis) ^ (-0.75 : ℝ) : ℝ) : ℂ) +
                Complex.I * ((-11.9 * (1e3 * freq / flow_resis) ^ (-0.73 : ℝ) : ℝ) : ℂ)),
            ((2 * Real.pi * freq / sound_spd : ℝ) : ℂ) *
              (((1 + 10.8 * (1e3 * freq / flow_resis) ^ (-0.7 : ℝ) : ℝ) : ℂ) +
                Complex.I * ((-10.3 * (1e3 * freq / flow_resis) ^ (-0.59 : ℝ) : ℝ) : ℂ))) ∧
    delany_bazley flow_resis air_dens sound_spd freq "miki" =
      some (((sound_spd * air_dens : ℝ) : ℂ) *
              (((1 + 5.50 * (1e3 * freq / flow_resis) ^ (-0.632 : ℝ) : ℝ) : ℂ) +
                Complex.I * ((-8.43 * (1e3 * freq / flow_resis) ^ (-0.632 : ℝ) : ℝ) : ℂ)),
            ((2 * Real.pi * freq / sound_spd : ℝ) : ℂ) *
              (((1 + 7.81 * (1e3 * freq / flow_resis) ^ (-0.618 : ℝ) : ℝ) : ℂ) +
                Complex.I * ((-11.41 * (1e3 * freq / flow_resis) ^ (-0.618 : ℝ) : ℝ) : ℂ))) ∧
    delany_bazley flow_resis air_dens sound_spd freq "allard-champoux" =
      some (((sound_spd * air_dens : ℝ) : ℂ) *
              (((1 + 0.0571 * (air_dens * freq / flow_resis) ^ (-0.754 : ℝ) : ℝ) : ℂ) +
                Complex.I * ((-0.0870 * (air_dens * freq / flow_resis) ^ (-0.732 : ℝ) : ℝ) : ℂ)),
            ((2 * Real.pi * freq / sound_spd : ℝ) : ℂ) *
              (((1 + 0.0978 * (air_dens * freq / flow_resis) ^ (-0.7 : ℝ) : ℝ) : ℂ) +
                Complex.I * ((-0.1890 * (air_dens * freq / flow_resis) ^ (-0.595 : ℝ) : ℝ) : ℂ))) ∧
    (∀ var : String, var ≠ "allard-champoux" → var ≠ "default" → var ≠ "miki" →
      delany_bazley flow_resis air_dens sound_spd freq var = none) := by
  refine ⟨rfl, rfl, rfl, ?_⟩
  intro var h1 h2 h3
  simp [delany_bazley, h1, h2, h3]

/-- Witness for C8 at f = 1000, flow_resis = 1000, air_dens = 1.2,
sound_spd = 343, checking in particular that the unknown string misc
yields none. -/
theorem delany_bazley_spec_witness :
    (0 : ℝ) < 1000 ∧ (0 : ℝ) < 1.2 ∧ (0 : ℝ) < 343 ∧
    delany_bazley 1000 1.2 343 1000 "misc" = none := by
  refine ⟨by norm_num, by norm_num, by norm_num, ?_⟩
  exact (delany_bazley_spec 1000 1.2 343 1000 (by norm_num) (by norm_num)
    (by norm_num) (by norm_num)).2.2.2 "misc" (by decide) (by decide) (by decide)

/-- Embeds rayleigh of pyabsorp/models/rayleigh.py: omega = 2 pi f,
alpha = (1 - (1j * poros * flow_resis) / (air_dens * omega)) ** 0.5 with
the principal-branch complex power, zc = (air_dens * sound_spd / poros) *
alpha and kc = (omega / sound_spd) * alpha, returned as (zc, kc). -/
def rayleigh (flow_resis air_dens sound_spd poros freq : ℝ) : ℂ × ℂ :=
  let omega : ℝ := 2 * Real.pi * freq
  let alpha : ℂ :=
    (1 - (Complex.I * (poros : ℂ) * (flow_resis : ℂ)) / ((air_dens * omega : ℝ) : ℂ)) ^ ((1 : ℂ) / 2)
  (((air_dens * sound_spd / poros : ℝ) : ℂ) * alpha, ((omega / sound_spd : ℝ) : ℂ) * alpha)

/-- C7: for positive inputs rayleigh returns the pair whose factor alpha
is the principal square root of 1 - i * poros * flow_resis / (air_dens *
omega), zc = (air_dens * sound_spd / poros) * alpha and
kc = (omega / sound_spd) * alpha with omega = 2 pi f. -/
theorem rayleigh_spec (flow_resis air_dens sound_spd poros freq : ℝ)
    (hf : 0 < freq) (hs : 0 < flow_resis) (hd : 0 < air_dens)
    (hc : 0 < sound_spd) (hp : 0 < poros) :
    rayleigh flow_resis air_dens sound_spd poros freq =
      (((air_dens * sound_spd / poros : ℝ) : ℂ) *
         (1 - (Complex.I * (poros : ℂ) * (flow_resis : ℂ)) /
            ((air_dens * (2 * Real.pi * freq) : ℝ) : ℂ)) ^ ((1 : ℂ) / 2),
       ((2 * Real.pi * freq / sound_spd : ℝ) : ℂ) *
         (1 - (Complex.I * (poros : ℂ) * (flow_resis : ℂ)) /
            ((air_dens * (2 * Real.pi * freq) : ℝ) : ℂ)) ^ ((1 : ℂ) / 2)) := rfl

/-- Witness for C7 at f = 100, flow_resis = 1000, air_dens = 1.2,
sound_spd = 343, poros = 1/2. -/
theorem rayleigh_spec_witness :
    (0 : ℝ) < 100 ∧ (0 : ℝ) < 1000 ∧ (0 : ℝ) < 1.2 ∧ (0 : ℝ) < 343 ∧
    (0 : ℝ) < 1 / 2 ∧
    rayleigh 1000 1.2 343 (1 / 2) 100 =
      (((1.2 * 343 / (1 / 2) : ℝ) : ℂ) *
         (1 - (Complex.I * (((1 : ℝ) / 2 : ℝ) : ℂ) * ((1000 : ℝ) : ℂ)) /
            ((1.2 * (2 * Real.pi * 100) : ℝ) : ℂ)) ^ ((1 : ℂ) / 2),
       ((2 * Real.pi * 100 / 343 : ℝ) : ℂ) *
         (1 - (Complex.I * (((1 : ℝ) / 2 : ℝ) : ℂ) * ((1000 : ℝ) : ℂ)) /
            ((1.2 * (2 * Real.pi * 100) : ℝ) : ℂ)) ^ ((1 : ℂ) / 2)) := by
  refine ⟨by norm_num, by norm_num, by norm_num, by norm_num, by norm_num, ?_⟩
  exact rayleigh_spec 1000 1.2 343 (1 / 2) 100 (by norm_num) (by norm_num)
    (by norm_num) (by norm_num) (by norm_num)

/-- Embeds johnson_champoux of pyabsorp/models/johnson_champoux.py. The
numpy powers ** 0.5 and ** -1 on complex arrays are the principal-branch
complex power and the reciprocal. The Python function has if branches for
the variants default, allard and lafarge and no else branch: for any
other string it falls off the end and returns None, embedded as none. -/
def johnson_champoux (flow_resis air_dens poros tortu gama prandtl atm visc therm neta
    therm_perm Cp freq : ℝ) (var : String) : Option (ℂ × ℂ) :=
  let omega : ℝ := 2 * Real.pi * freq
  if var = "default" then
    let rho_ef_part_a : ℝ := 4 * omega * air_dens * neta * tortu ^ 2
    let rho_ef_part_b : ℝ := flow_resis ^ 2 * poros ^ 2 * visc ^ 2
    let rho_ef_part_c : ℂ :=
      (1 + Complex.I * ((rho_ef_part_a / rho_ef_part_b : ℝ) : ℂ)) ^ ((1 : ℂ) / 2)
    let rho_ef_part_d : ℂ := Complex.I * (omega : ℂ) * (air_dens : ℂ) * (tortu : ℂ)
    let rho_ef_part_e : ℂ :=
      1 + (((poros * flow_resis : ℝ) : ℂ) / rho_ef_part_d) * rho_ef_part_c
    let rho_ef : ℂ := (air_dens : ℂ) * (tortu : ℂ) * rho_ef_part_e
    let k_ef_part_a : ℝ := omega * prandtl * air_dens * therm ^ 2
    let k_ef_part_b : ℂ :=
      (1 + Complex.I * ((k_ef_part_a / (16 * neta) : ℝ) : ℂ)) ^ ((1 : ℂ) / 2)
    let k_ef_part_c : ℂ :=
      (1 - ((Complex.I * 8 * (neta : ℂ)) / (k_ef_part_a : ℂ)) * k_ef_part_b)⁻¹
    let k_ef_part_d : ℂ := (gama : ℂ) - ((gama : ℂ) - 1) * k_ef_part_c
    let k_ef : ℂ := ((gama * atm : ℝ) : ℂ) / k_ef_part_d
    let rho_eq : ℂ := rho_ef / (poros : ℂ)
    let k_eq : ℂ := k_ef / (poros : ℂ)
    some ((k_eq * rho_eq) ^ ((1 : ℂ) / 2), (omega : ℂ) * ((rho_eq / k_eq) ^ ((1 : ℂ) / 2)))
  else if var = "allard" then
    let rho_ef_part_a : ℝ := 4 * air_dens * tortu ^ 2 * neta * omega
    let rho_ef_part_b : ℝ := flow_resis ^ 2 * poros ^ 2 * visc ^ 2
    let rho_ef_part_c : ℂ :=
      (1 + Complex.I * ((rho_ef_part_a / rho_ef_part_b : ℝ) : ℂ)) ^ ((1 : ℂ) / 2)
    let rho_ef_part_d : ℂ :=
      ((flow_resis * poros : ℝ) : ℂ) / (Complex.I * (air_dens : ℂ) * (tortu : ℂ) * (omega : ℂ))
    let rho_ef_part_e : ℂ := 1 + rho_ef_part_d * rho_ef_part_c
    let rho_ef : ℂ := ((air_dens * tortu : ℝ) : ℂ) * rho_ef_part_e
    let k_ef_part_a : ℝ := 4 * air_dens * tortu ^ 2 * neta * omega
    let k_ef_part_b : ℝ := flow_resis ^ 2 * poros ^ 2 * therm ^ 2
    let k_ef_part_c : ℂ :=
      (1 + Complex.I * ((k_ef_part_a / k_ef_part_b : ℝ) : ℂ)) ^ ((1 : ℂ) / 2)
    let k_ef_part_d : ℝ := flow_resis * poros / (air_dens * prandtl * tortu * omega)
    let k_ef_part_e : ℂ := (1 - Complex.I * (k_ef_part_d : ℂ) * k_ef_part_c)⁻¹
    let k_ef_part_f : ℂ := (gama : ℂ) - ((gama : ℂ) - 1) * k_ef_part_e
    let k_ef : ℂ := ((gama * atm : ℝ) : ℂ) / k_ef_part_f
    let rho_eq : ℂ := rho_ef / (poros : ℂ)
    let k_eq : ℂ := k_ef / (poros : ℂ)
    some ((k_eq * rho_eq) ^ ((1 : ℂ) / 2), (omega : ℂ) * ((rho_eq / k_eq) ^ ((1 : ℂ) / 2)))
  else if var = "lafarge" then
    let KAPPA : ℝ := 0.026
    let common_part : ℝ := 4 * omega * air_dens
    let rho_ef_part_a : ℝ := common_part * neta * tortu ^ 2
    let rho_ef_part_b : ℝ := flow_resis ^ 2 * visc ^ 2 * poros ^ 2
    let rho_ef_part_c : ℂ :=
      (1 + Complex.I * ((rho_ef_part_a / rho_ef_part_b : ℝ) : ℂ)) ^ ((1 : ℂ) / 2)
    let rho_ef_part_d : ℂ :=
      ((flow_resis * poros : ℝ) : ℂ) / (Complex.I * (omega : ℂ) * (air_dens : ℂ) * (tortu : ℂ))
    let rho_ef_part_e : ℂ := 1 + rho_ef_part_d * rho_ef_part_c
    let rho_ef : ℂ := ((air_dens * tortu : ℝ) : ℂ) * rho_ef_part_e
    let k_ef_part_a : ℝ := common_part * Cp * therm_perm ^ 2
    let k_ef_part_b : ℝ := KAPPA * therm ^ 2 * poros ^ 2
    let k_ef_part_c : ℂ :=
      (1 + Complex.I * ((k_ef_part_a / k_ef_part_b : ℝ) : ℂ)) ^ ((1 : ℂ) / 2)
    let k_ef_part_d : ℝ := poros * KAPPA / (therm_perm * Cp * air_dens * omega)
    let k_ef_part_e : ℂ := (1 - Complex.I * ((k_ef_part_d : ℂ) * k_ef_part_c))⁻¹
    let k_ef_part_f : ℂ := (gama : ℂ) - ((gama : ℂ) - 1) * k_ef_part_e
    let k_ef : ℂ := ((gama * atm : ℝ) : ℂ) / k_ef_part_f
    let rho_eq : ℂ := rho_ef / (poros : ℂ)
    let k_eq : ℂ := k_ef / (poros : ℂ)
    some ((k_eq * rho_eq) ^ ((1 : ℂ) / 2), (omega : ℂ) * ((rho_eq / k_eq) ^ ((1 : ℂ) / 2)))
  else
    none

/-- C2: calling johnson_champoux with a variant string outside the set
default, allard, lafarge does not raise; the Python function falls
through its if chain and returns None. Evaluated here at a concrete
argument list with the unknown variant string invalid. -/
theorem johnson_champoux_unknown_var_returns_none :
    johnson_champoux 1 1 1 1 1 1 1 1 1 1 0 0 1 "invalid" = none := rfl

/-- C3: johnson_champoux performs no parameter validation. The allard
branch never reads Cp, so Cp = 0 and Cp = 5 give identical results; the
lafarge branch with Cp = 0 and therm_perm = 0 still returns a value pair
(under IEEE arithmetic the internal divisions by zero produce non-finite
entries) instead of raising a configuration error. -/
theorem johnson_champoux_no_param_validation :
    johnson_champoux 1 1 1 1 1 1 1 1 1 1 0 0 1 "allard" =
      johnson_champoux 1 1 1 1 1 1 1 1 1 1 0 5 1 "allard" ∧
    (johnson_champoux 1 1 1 1 1 1 1 1 1 1 0 0 1 "lafarge").isSome = true := ⟨rfl, rfl⟩

/-- Embeds ceilsius_to_kelvin of pyabsorp/air/air_functions.py. -/
def ceilsius_to_kelvin (t : ℝ) : ℝ := t + 273.16

/-- Embeds viscosity of pyabsorp/air/air_functions.py. -/
def viscosity (t : ℝ) : ℝ := 7.72488e-8 * t - 5.95238e-11 * t ^ 2 + 2.71368e-14 * t ^ 3

/-- Embeds pierce of pyabsorp/air/air_functions.py. -/
def pierce (t : ℝ) : ℝ := 0.0658 * t ^ 3 - 53.7558 * t ^ 2 + 14703.8127 * t - 1345485.0465

/-- Embeds specific_heat_constant_pressure of
pyabsorp/air/air_functions.py. -/
def specific_heat_constant_pressure (t : ℝ) : ℝ :=
  4168.8 * (0.249679 - 7.55179e-5 * t + 1.69194e-7 * t ^ 2 - 6.46128e-11 * t ^ 3)

/-- Embeds specific_heat_constant_volume of
pyabsorp/air/air_functions.py at its default AIR_CONST. -/
def specific_heat_constant_volume (Cp : ℝ) : ℝ := Cp - 287.031

/-- Embeds prandtl of pyabsorp/air/air_functions.py at its default
KAPPA. -/
def prandtl (viscosity Cp : ℝ) : ℝ := viscosity * Cp / 0.026

/-- Embeds specific_heat_ratio of pyabsorp/air/air_functions.py. -/
def specific_heat_ratio (Cp Cv : ℝ) : ℝ := Cp / Cv

/-- Embeds air_density of pyabsorp/air/air_functions.py at its default
gas constants: the pressure term minus the humidity correction built
from the pierce value. -/
def air_density (t humidity atmospheric_pressure pierce : ℝ) : ℝ :=
  atmospheric_pressure / (287.031 * t) -
    (1 / 287.031 - 1 / 461.521) * humidity / 100 * pierce / t

/-- Embeds sound_speed of pyabsorp/air/air_functions.py; the Python
real power ** 0.5 is the real rpow. -/
def sound_speed (gama atmospheric_pressure air_dens : ℝ) : ℝ :=
  (gama * atmospheric_pressure / air_dens) ^ (0.5 : ℝ)

/-- Embeds air_impedance of pyabsorp/air/air_functions.py. -/
def air_impedance (sound_spd air_dens : ℝ) : ℝ := sound_spd * air_dens

/-- Helper: on the documented temperature domain 260 K to 600 K the
specific-heat polynomial stays above the air gas constant, so the
specific heat at constant volume and the specific-heat ratio are
positive there. -/
theorem specific_heat_cp_gt_air_const (t : ℝ) (h1 : 260 ≤ t) (h2 : t ≤ 600) :
    287.031 < specific_heat_constant_pressure t := by
  rw [specific_heat_constant_pressure]
  nlinarith [sq_nonneg (t - 290), mul_nonneg (by linarith : (0 : ℝ) ≤ 600 - t) (sq_nonneg t)]

/-- C4 counterexample: at temperature 226.84 C (absolute temperature
exactly 500 K, inside the documented 260 K to 600 K domain), humidity
100 and standard atmospheric pressure 101325 Pa, the air density
computed by the code is negative: the pierce cubic extrapolates to a
huge vapor-pressure value, so the humidity correction overwhelms the
pressure term. -/
theorem air_density_negative_counterexample :
    ceilsius_to_kelvin 226.84 = 500 ∧
    (260 : ℝ) ≤ 500 ∧ (500 : ℝ) ≤ 600 ∧ (0 : ℝ) < 101325 ∧
    air_density 500 100 101325 (pierce 500) < 0 := by
  refine ⟨by norm_num [ceilsius_to_kelvin], by norm_num, by norm_num, by norm_num, ?_⟩
  rw [air_density, pierce]
  norm_num

/-- C4 amended: on the documented domain 260 K to 600 K, with humidity
in 0 to 100, the computed air density is strictly positive whenever the
atmospheric pressure additionally exceeds the humidity correction scaled
by the air gas constant (a condition automatic for dry air, but violated
at high temperature and humidity even at standard pressure), and the
computed sound speed is then real and strictly positive. -/
theorem air_density_pos_sound_speed_pos (t humidity atm : ℝ)
    (h1 : 260 ≤ ceilsius_to_kelvin t) (h2 : ceilsius_to_kelvin t ≤ 600)
    (h3 : 0 ≤ humidity) (h4 : humidity ≤ 100) (h5 : 0 < atm)
    (h6 : 287.031 * ((1 / 287.031 - 1 / 461.521) * humidity / 100 *
            pierce (ceilsius_to_kelvin t)) < atm) :
    0 < air_density (ceilsius_to_kelvin t) humidity atm (pierce (ceilsius_to_kelvin t)) ∧
    0 < sound_speed
        (specific_heat_ratio (specific_heat_constant_pressure (ceilsius_to_kelvin t))
          (specific_heat_constant_volume (specific_heat_constant_pressure (ceilsius_to_kelvin t))))
        atm
        (air_density (ceilsius_to_kelvin t) humidity atm (pierce (ceilsius_to_kelvin t))) := by
  set T := ceilsius_to_kelvin t with hT
  have hTpos : 0 < T := by linarith
  have hdens : 0 < air_density T humidity atm (pierce T) := by
    rw [air_density]
    have hrw : atm / (287.031 * T) -
        (1 / 287.031 - 1 / 461.521) * humidity / 100 * pierce T / T =
        (atm - 287.031 * ((1 / 287.031 - 1 / 461.521) * humidity / 100 * pierce T)) /
          (287.031 * T) := by
      field_simp
      ring
    rw [hrw]
    apply div_pos (by linarith) (by positivity)
  refine ⟨hdens, ?_⟩
  have hcp := specific_heat_cp_gt_air_const T h1 h2
  have hcv : 0 < specific_heat_constant_volume (specific_heat_constant_pressure T) := by
    rw [specific_heat_constant_volume]; linarith
  have hgama : 0 < specific_heat_ratio (specific_heat_constant_pressure T)
      (specific_heat_constant_volume (specific_heat_constant_pressure T)) := by
    rw [specific_heat_ratio]
    exact div_pos (by linarith) hcv
  rw [sound_speed]
  exact Real.rpow_pos_of_pos (by positivity) _

/-- Witness for C4 amended at 20 C, dry air, standard pressure. -/
theorem air_density_pos_sound_speed_pos_witness :
    (260 : ℝ) ≤ ceilsius_to_kelvin 20 ∧ ceilsius_to_kelvin 20 ≤ 600 ∧
    (0 : ℝ) ≤ 0 ∧ (0 : ℝ) ≤ 100 ∧ (0 : ℝ) < 101325 ∧
    287.031 * ((1 / 287.031 - 1 / 461.521) * 0 / 100 * pierce (ceilsius_to_kelvin 20)) <
      101325 ∧
    0 < air_density (ceilsius_to_kelvin 20) 0 101325 (pierce (ceilsius_to_kelvin 20)) := by
  have hd : ceilsius_to_kelvin 20 = 293.16 := by norm_num [ceilsius_to_kelvin]
  have h1 : (260 : ℝ) ≤ ceilsius_to_kelvin 20 := by rw [hd]; norm_num
  have h2 : ceilsius_to_kelvin 20 ≤ 600 := by rw [hd]; norm_num
  have h3 : (0 : ℝ) ≤ 0 := le_refl 0
  have h4 : (0 : ℝ) ≤ 100 := by norm_num
  have h5 : (0 : ℝ) < 101325 := by norm_num
  have h6 : 287.031 * ((1 / 287.031 - 1 / 461.521) * 0 / 100 *
      pierce (ceilsius_to_kelvin 20)) < 101325 := by
    simp
  exact ⟨h1, h2, h3, h4, h5, h6,
    (air_density_pos_sound_speed_pos 20 0 101325 h1 h2 h3 h4 h5 h6).1⟩

/-- Witness for C10 at zc = 1, kc = pi/4, d = 1, z_air = 1. -/
theorem absorption_coefficient_le_one_witness :
    Complex.tan (((Real.pi / 4 : ℝ) : ℂ) * ((1 : ℝ) : ℂ)) ≠ 0 ∧
    zs 1 ((Real.pi / 4 : ℝ) : ℂ) 1 ≠ -((1 : ℝ) : ℂ) ∧
    absorption_coefficient 1 ((Real.pi / 4 : ℝ) : ℂ) 1 1 ≤ 1 := by
  have htan : Complex.tan (((Real.pi / 4 : ℝ) : ℂ) * ((1 : ℝ) : ℂ)) = 1 := by
    rw [Complex.ofReal_one, mul_one, complex_tan_pi_div_four]
  have h1 : Complex.tan (((Real.pi / 4 : ℝ) : ℂ) * ((1 : ℝ) : ℂ)) ≠ 0 := by
    rw [htan]; exact one_ne_zero
  have h2 : zs 1 ((Real.pi / 4 : ℝ) : ℂ) 1 ≠ -((1 : ℝ) : ℂ) := by
    rw [zs, htan]
    simp [Complex.ext_iff]
  exact ⟨h1, h2, absorption_coefficient_le_one.1 1 _ 1 1 h1 h2⟩

end

end PyAbsorp
